import Mathlib

/-!
Verification development for the multitenant emotion-conversation analytics
backend.  The JavaScript sources are shallowly embedded: JS numbers become
rationals, documents become structures, the external text-generation call
becomes an explicit `Option` argument (`none` models a call that threw or
whose reply could not be parsed as JSON), and the document store becomes an
explicit list-backed database value threaded through the handlers.  The
absent `interactionAnalysis` block of the rollup record is the one part of
the aggregator left out of the embedding: it computes a floating-point
square root, which has no exact counterpart over the rationals, and no
claim depends on it.
-/

namespace VoiceApp

/-- Stable insertion used by `sortByLe`: the new element is placed after
every already-placed element `y` with `le y x`. -/
def insertLe {α : Type} (le : α → α → Bool) (x : α) : List α → List α
  | [] => [x]
  | y :: ys => if le y x then y :: insertLe le x ys else x :: y :: ys

/-- Stable sort by the boolean relation `le` (`le a b` meaning `a` may come
before `b`).  Models the stable `Array.prototype.sort` of modern JS
engines, preserving first-seen order among ties. -/
def sortByLe {α : Type} (le : α → α → Bool) (l : List α) : List α :=
  l.foldl (fun acc x => insertLe le x acc) []

/-- JavaScript `v || d` for a numeric field: an absent field and `0` are
falsy and yield the default. -/
def jsOrNum (v : Option ℚ) (d : ℚ) : ℚ :=
  match v with
  | none => d
  | some x => if x = 0 then d else x

/-- JavaScript `v || d` for a string field: an absent field and the empty
string are falsy and yield the default. -/
def jsOrStr (v : Option String) (d : String) : String :=
  match v with
  | none => d
  | some s => if s = "" then d else s

/-- JavaScript `v > n` for a possibly absent numeric field: any comparison
with `undefined` is false. -/
def jsGtNum (v : Option ℚ) (n : ℚ) : Bool :=
  match v with
  | none => false
  | some x => decide (n < x)

/-- JavaScript `v < n` for a possibly absent numeric field: any comparison
with `undefined` is false. -/
def jsLtNum (v : Option ℚ) (n : ℚ) : Bool :=
  match v with
  | none => false
  | some x => decide (x < n)

/-- Checks whether the character list `pat` starts the given list. -/
def startsWithChars : List Char → List Char → Bool
  | _, [] => true
  | [], _ :: _ => false
  | a :: as, b :: bs => a == b && startsWithChars as bs

/-- Helper for `containsSub`: scans every suffix. -/
def containsSubAux (pat : List Char) : List Char → Bool
  | [] => pat.isEmpty
  | c :: rest => startsWithChars (c :: rest) pat || containsSubAux pat rest

/-- JavaScript `s.includes(pat)`: substring containment. -/
def containsSub (s pat : String) : Bool := containsSubAux pat.data s.data

/-- JavaScript `s.toLowerCase()` restricted to the ASCII range used by the
keyword dictionaries. -/
def lowerString (s : String) : String := String.mk (s.data.map Char.toLower)

/-- Components of a JS `Date` value: epoch milliseconds plus the local-time
fields read by `getHours`, `getDay` and `getMonth`. -/
structure DateTime where
  epochMs : Int
  hour : Nat
  dayIdx : Nat
  month : Nat
deriving DecidableEq

/-- Per-response emotion analysis attached to each question entry of an
EmotionConversation (schema of `emotionAIService.analyzeEmotion`). -/
structure EmotionAnalysis where
  primaryEmotion : String
  intensity : ℚ
  confidence : ℚ
  triggers : List String
  context : String
  needs : List String
  sentiment : ℚ
deriving DecidableEq

/-- Aggregate `overallEmotion` block of a completed conversation (schema of
`emotionAIService.analyzeOverallEmotion`). -/
structure OverallEmotion where
  dominantEmotion : String
  averageIntensity : ℚ
  emotionalState : String
  wellBeingScore : ℚ
  stressLevel : ℚ
  energyLevel : ℚ
  satisfaction : ℚ
deriving DecidableEq

/-- Free-text insight block of a completed conversation (schema of
`emotionAIService.generateEmotionalInsights`). -/
structure EmotionalInsights where
  emotionalPatterns : List String
  concerns : List String
  positiveFactors : List String
  recommendations : List String
  keyTopics : List String
deriving DecidableEq

/-- One question/response pair as pushed by the respond route. -/
structure Question where
  questionId : String
  questionText : String
  userResponse : String
  emotionAnalysis : EmotionAnalysis
  timestamp : Int
deriving DecidableEq

/-- Status field of an EmotionConversation document. -/
inductive ConvStatus
  | in_progress
  | completed
  | abandoned
deriving DecidableEq

/-- Optional contextual-factor block of a conversation document; every
field may be absent. -/
structure ContextualFactors where
  externalEvents : Option (List String) := none
  workload : Option ℚ := none
  weather : Option String := none
  location : Option String := none
  device : Option String := none
deriving DecidableEq

/-- An EmotionConversation document.  `id` models the globally unique
Mongo `_id`. -/
structure StoredConversation where
  id : Nat
  tenantId : Nat
  userId : Nat
  sessionId : String
  conversationType : String
  questions : List Question
  overallEmotion : Option OverallEmotion
  insights : Option EmotionalInsights
  status : ConvStatus
  createdAt : DateTime
  completedAt : Option Int
  contextualFactors : Option ContextualFactors
deriving DecidableEq

/-- Emotional baseline stored on a user profile. -/
structure Baseline where
  mood : ℚ
  stress : ℚ
  energy : ℚ
  satisfaction : ℚ
deriving DecidableEq

/-- Baseline-metrics block of a user profile. -/
structure BaselineMetrics where
  emotionalBaseline : Baseline
deriving DecidableEq

/-- A UserProfile document. -/
structure UserProfile where
  userId : Nat
  tenantId : Nat
  baselineMetrics : Option BaselineMetrics
deriving DecidableEq

/-- Basic metrics block of a ConversationAnalytics record
(`calculateMetrics`). -/
structure Metrics where
  totalMessages : Nat
  userMessages : Nat
  aiMessages : Nat
  conversationDuration : ℚ
  averageResponseTime : ℚ
  sentimentScore : ℚ
  emotionalIntensity : ℚ
  wellBeingScore : ℚ
  stressLevel : ℚ
  energyLevel : ℚ
  satisfactionLevel : ℚ
deriving DecidableEq

/-- Entry of the `dominantEmotions` list. -/
structure DominantEmotion where
  emotion : String
  frequency : Nat
  intensity : ℚ
deriving DecidableEq

/-- Entry of the `emotionalTriggers` list. -/
structure TriggerEntry where
  trigger : String
  frequency : Nat
  impact : ℚ
deriving DecidableEq

/-- Entry of the `emotionalNeeds` list. -/
structure NeedEntry where
  need : String
  frequency : Nat
  priority : ℚ
deriving DecidableEq

/-- Emotional-insight block of a ConversationAnalytics record
(`analyzeEmotionalContent`). -/
structure EmotionalInsightsBlock where
  dominantEmotions : List DominantEmotion
  emotionalTriggers : List TriggerEntry
  emotionalNeeds : List NeedEntry
  moodPatterns : List String
deriving DecidableEq

/-- Entry of the `topics` list of a ConversationAnalytics record. -/
structure TopicEntry where
  topic : String
  frequency : Nat
  sentiment : ℚ
  keywords : List String
deriving DecidableEq

/-- Quality-metrics block (`calculateQualityMetrics`). -/
structure QualityMetrics where
  engagement : ℚ
  openness : ℚ
  trust : ℚ
  satisfaction : ℚ
  helpfulness : ℚ
deriving DecidableEq

/-- One rule-based recommendation (`generateRecommendations`). -/
structure Recommendation where
  type : String
  priority : String
  description : String
  actionable : Bool
deriving DecidableEq

/-- AI-performance block carried inside the parsed insight payload; the
default produced by `getDefaultInsights` has no `helpfulness` member, so
that field is optional. -/
structure AIPerformance where
  empathy : ℚ
  relevance : ℚ
  questionQuality : ℚ
  contextualAwareness : ℚ
  helpfulness : Option ℚ := none
deriving DecidableEq

/-- Summary block carried inside the parsed insight payload. -/
structure AISummary where
  keyPoints : List String
  concerns : List String
  positiveAspects : List String
  areasForImprovement : List String
deriving DecidableEq

/-- Payload shape of `generateAIInsights`; the pattern/trigger/need lists
are opaque strings here because nothing downstream reads their element
structure. -/
structure AIInsights where
  emotionalPatterns : List String
  triggers : List String
  needs : List String
  concerns : List String
  positiveAspects : List String
  aiPerformance : AIPerformance
  summary : AISummary
  recommendations : List String
deriving DecidableEq

/-- Numeric next-week projection of the predictive-insight payload. -/
structure PredictedOutcomes where
  nextWeekMood : ℚ
  nextWeekStress : ℚ
  nextWeekEnergy : ℚ
  confidence : ℚ
deriving DecidableEq

/-- Payload shape of `generatePredictiveInsights`. -/
structure PredictiveInsights where
  riskFactors : List String
  improvementAreas : List String
  successIndicators : List String
  interventionRecommendations : List String
  predictedOutcomes : PredictedOutcomes
  earlyWarningSignals : List String
  opportunityAreas : List String
deriving DecidableEq

/-- Contextual-analysis block (`analyzeContextualFactors`). -/
structure ContextualAnalysis where
  timeOfDay : String
  dayOfWeek : String
  season : String
  externalEvents : List String
  workload : ℚ
  weather : String
  location : String
  device : String
  impactOnMood : ℚ
  environmentalStressors : List String
  environmentalSupports : List String
deriving DecidableEq

/-- Progress-indicator constants of the historical block. -/
structure ProgressIndicators where
  emotionalGrowth : ℚ
  stressManagement : ℚ
  selfAwareness : ℚ
  copingStrategies : ℚ
deriving DecidableEq

/-- Baseline-comparison block; `none` models the `NaN` that the JS
subtraction produces when `overallEmotion` is absent. -/
structure BaselineComparison where
  moodVsBaseline : Option ℚ
  stressVsBaseline : Option ℚ
  energyVsBaseline : Option ℚ
  satisfactionVsBaseline : Option ℚ
deriving DecidableEq

/-- Trend-analysis constants of the historical block. -/
structure TrendAnalysis where
  shortTermTrend : String
  mediumTermTrend : String
  longTermTrend : String
  volatilityIndex : ℚ
deriving DecidableEq

/-- Historical-analysis block (`analyzeHistoricalContext`). -/
structure HistoricalAnalysis where
  previousMood : ℚ
  trendDirection : String
  recurringThemes : List String
  progressIndicators : ProgressIndicators
  baselineComparison : BaselineComparison
  trendAnalysis : TrendAnalysis
deriving DecidableEq

/-- One peer-average entry of the mock peer data. -/
structure PeerMetric where
  avgWellBeing : ℚ
  avgStress : ℚ
deriving DecidableEq

/-- Peer-comparison block. -/
structure PeerComparison where
  departmentAverage : PeerMetric
  roleAverage : PeerMetric
  experienceLevelAverage : PeerMetric
  percentileRanking : ℚ
deriving DecidableEq

/-- Well-being/stress/satisfaction triple used by the benchmark blocks. -/
structure BenchmarkAvg where
  wellBeing : ℚ
  stress : ℚ
  satisfaction : ℚ
deriving DecidableEq

/-- Industry-benchmark block. -/
structure IndustryBenchmarks where
  industryAverage : BenchmarkAvg
  bestPractices : List String
  benchmarkComparison : BenchmarkAvg
deriving DecidableEq

/-- Personal-baseline block. -/
structure PersonalBaselineBlock where
  historicalAverage : BenchmarkAvg
  improvementAreas : List String
  strengthAreas : List String
deriving DecidableEq

/-- Comparative-analytics block (`generateComparativeAnalytics`). -/
structure ComparativeAnalytics where
  peerComparison : PeerComparison
  industryBenchmarks : IndustryBenchmarks
  personalBaseline : PersonalBaselineBlock
deriving DecidableEq

/-- One recommendation as recorded by action tracking. -/
structure GivenRecommendation where
  type : String
  description : String
  priority : String
  givenAt : Int
deriving DecidableEq

/-- Action-tracking block (`initializeActionTracking`). -/
structure ActionTracking where
  recommendationsGiven : List GivenRecommendation
  actionsTaken : List String
  followUpRequired : Bool
  followUpDate : Int
  interventionHistory : List String
deriving DecidableEq

/-- The ConversationAnalytics record assembled by `analyzeConversation`.
The `interactionAnalysis` block is outside the embedding (see the header
comment). -/
structure ConversationAnalyticsRecord where
  tenantId : Nat
  userId : Nat
  conversationId : Nat
  conversationType : String
  metrics : Metrics
  emotionalInsights : EmotionalInsightsBlock
  topics : List TopicEntry
  qualityMetrics : QualityMetrics
  aiPerformance : AIPerformance
  recommendations : List Recommendation
  conversationSummary : AISummary
  contextualAnalysis : ContextualAnalysis
  historicalAnalysis : HistoricalAnalysis
  predictiveInsights : PredictiveInsights
  comparativeAnalytics : ComparativeAnalytics
  actionTracking : ActionTracking
deriving DecidableEq

/-- A persisted ConversationAnalytics document as read by the dashboard
query layer; `date` is set by the schema default at save time. -/
structure StoredAnalytics where
  tenantId : Nat
  userId : Nat
  date : Int
  conversationType : String
  metrics : Metrics
  qualityMetrics : QualityMetrics
  emotionalInsights : EmotionalInsightsBlock
  topics : List TopicEntry
  recommendations : List Recommendation
deriving DecidableEq

/-- The document store: the collections touched by the embedded flows. -/
structure Db where
  emotionConversations : List StoredConversation
  userProfiles : List UserProfile
  conversationAnalytics : List StoredAnalytics
deriving DecidableEq

/-- Untrusted JSON payload parsed from the per-response scoring call; every
field may be absent. -/
structure RawEmotionPayload where
  primaryEmotion : Option String := none
  intensity : Option ℚ := none
  confidence : Option ℚ := none
  triggers : Option (List String) := none
  context : Option String := none
  needs : Option (List String) := none
  sentiment : Option ℚ := none
deriving DecidableEq

/-- Untrusted JSON payload parsed from the whole-conversation summary
call. -/
structure RawOverallPayload where
  dominantEmotion : Option String := none
  averageIntensity : Option ℚ := none
  emotionalState : Option String := none
  wellBeingScore : Option ℚ := none
  stressLevel : Option ℚ := none
  energyLevel : Option ℚ := none
  satisfaction : Option ℚ := none
deriving DecidableEq

/-- Untrusted JSON payload parsed from the insight-generation call. -/
structure RawInsightsPayload where
  emotionalPatterns : Option (List String) := none
  concerns : Option (List String) := none
  positiveFactors : Option (List String) := none
  recommendations : Option (List String) := none
  keyTopics : Option (List String) := none
deriving DecidableEq

/-- `emotionAIService.analyzeEmotion(text, context)`.  `llm` is the outcome
of the external call: `none` when it threw or its reply was unparsable,
`some payload` when a JSON object was parsed.  On success every numeric
field is clamped to its range after the falsy-default; on failure the
neutral fallback of the catch block is returned. -/
def analyzeEmotion (text context : String) (llm : Option RawEmotionPayload) :
    EmotionAnalysis :=
  match llm with
  | some analysis =>
      { primaryEmotion := jsOrStr analysis.primaryEmotion "neutral"
        intensity := max 1 (min 10 (jsOrNum analysis.intensity 5))
        confidence := max 0 (min 1 (jsOrNum analysis.confidence (1/2)))
        triggers := analysis.triggers.getD []
        context := jsOrStr analysis.context context
        needs := analysis.needs.getD []
        sentiment := max (-1) (min 1 (jsOrNum analysis.sentiment 0)) }
  | none =>
      { primaryEmotion := "neutral"
        intensity := 5
        confidence := 3/10
        triggers := []
        context := context
        needs := []
        sentiment := 0 }

/-- `emotionAIService.analyzeOverallEmotion(conversation)`: the
whole-conversation summary, with the same clamp-on-success and
default-on-failure discipline. -/
def analyzeOverallEmotion (conversation : StoredConversation)
    (llm : Option RawOverallPayload) : OverallEmotion :=
  match llm with
  | some analysis =>
      { dominantEmotion := jsOrStr analysis.dominantEmotion "neutral"
        averageIntensity := max 1 (min 10 (jsOrNum analysis.averageIntensity 5))
        emotionalState := jsOrStr analysis.emotionalState "balanced"
        wellBeingScore := max 1 (min 10 (jsOrNum analysis.wellBeingScore 5))
        stressLevel := max 1 (min 10 (jsOrNum analysis.stressLevel 5))
        energyLevel := max 1 (min 10 (jsOrNum analysis.energyLevel 5))
        satisfaction := max 1 (min 10 (jsOrNum analysis.satisfaction 5)) }
  | none =>
      { dominantEmotion := "neutral"
        averageIntensity := 5
        emotionalState := "balanced"
        wellBeingScore := 5
        stressLevel := 5
        energyLevel := 5
        satisfaction := 5 }

/-- `emotionAIService.generateEmotionalInsights(conversation)`. -/
def generateEmotionalInsights (conversation : StoredConversation)
    (llm : Option RawInsightsPayload) : EmotionalInsights :=
  match llm with
  | some insights =>
      { emotionalPatterns := insights.emotionalPatterns.getD []
        concerns := insights.concerns.getD []
        positiveFactors := insights.positiveFactors.getD []
        recommendations := insights.recommendations.getD []
        keyTopics := insights.keyTopics.getD [] }
  | none =>
      { emotionalPatterns := []
        concerns := []
        positiveFactors := []
        recommendations := []
        keyTopics := [] }

/-- One message of the flattened transcript built by
`extractConversationData`; `type` is the literal `"ai"` or `"user"`. -/
structure Message where
  type : String
  content : String
  timestamp : Int
  emotionAnalysis : Option EmotionAnalysis
deriving DecidableEq

/-- The structured data extracted from a conversation document.  Note that
it has no `topics` member: an access to one in the dynamically typed
source yields `undefined`. -/
structure ConversationData where
  messages : List Message
  totalDuration : ℚ
  responseTimes : List ℚ
  conversationType : String
  overallEmotion : Option OverallEmotion
  insights : Option EmotionalInsights
deriving DecidableEq

/-- `extractConversationData`: per question one AI message and one user
message; inter-question timestamp gaps in seconds; `totalDuration` is
initialised to `0` and never updated by the source. -/
def extractConversationData (conversation : StoredConversation) :
    ConversationData :=
  let messages := conversation.questions.foldr
    (fun question acc =>
      { type := "ai", content := question.questionText,
        timestamp := question.timestamp, emotionAnalysis := none } ::
      { type := "user", content := question.userResponse,
        timestamp := question.timestamp,
        emotionAnalysis := some question.emotionAnalysis } :: acc) []
  let responseTimes := (conversation.questions.zip (conversation.questions.drop 1)).map
    (fun p => (((p.2.timestamp - p.1.timestamp : Int) : ℚ)) / 1000)
  { messages := messages
    totalDuration := 0
    responseTimes := responseTimes
    conversationType := conversation.conversationType
    overallEmotion := conversation.overallEmotion
    insights := conversation.insights }

/-- `getDefaultInsights`: fallback payload of `generateAIInsights`. -/
def getDefaultInsights : AIInsights :=
  { emotionalPatterns := []
    triggers := []
    needs := []
    concerns := []
    positiveAspects := []
    aiPerformance :=
      { empathy := 7, relevance := 7, questionQuality := 7,
        contextualAwareness := 7, helpfulness := none }
    summary :=
      { keyPoints := [], concerns := [], positiveAspects := [],
        areasForImprovement := [] }
    recommendations := [] }

/-- `generateAIInsights(conversationData)`: the parsed reply is returned
as-is; any throw or parse failure yields `getDefaultInsights`. -/
def generateAIInsights (conversationData : ConversationData)
    (llm : Option AIInsights) : AIInsights :=
  match llm with
  | some parsed => parsed
  | none => getDefaultInsights

/-- `calculateMetrics(conversationData)`.  A sentiment equal to the neutral
default `0` and an intensity equal to the neutral default `5` are excluded
from their averages. -/
def calculateMetrics (conversationData : ConversationData) : Metrics :=
  let userMessages := conversationData.messages.filter (fun msg => msg.type == "user")
  let aiMessages := conversationData.messages.filter (fun msg => msg.type == "ai")
  let sentimentScores :=
    (userMessages.map (fun msg => jsOrNum (msg.emotionAnalysis.map (·.sentiment)) 0)).filter
      (fun score => decide (score ≠ 0))
  let avgSentiment :=
    if sentimentScores.length > 0 then
      sentimentScores.sum / (sentimentScores.length : ℚ)
    else 0
  let intensities :=
    (userMessages.map (fun msg => jsOrNum (msg.emotionAnalysis.map (·.intensity)) 5)).filter
      (fun intensity => decide (intensity ≠ 5))
  let avgIntensity :=
    if intensities.length > 0 then
      intensities.sum / (intensities.length : ℚ)
    else 5
  let avgResponseTime :=
    if conversationData.responseTimes.length > 0 then
      conversationData.responseTimes.sum / (conversationData.responseTimes.length : ℚ)
    else 0
  { totalMessages := conversationData.messages.length
    userMessages := userMessages.length
    aiMessages := aiMessages.length
    conversationDuration := conversationData.totalDuration
    averageResponseTime := avgResponseTime
    sentimentScore := avgSentiment
    emotionalIntensity := avgIntensity
    wellBeingScore := jsOrNum (conversationData.overallEmotion.map (·.wellBeingScore)) 5
    stressLevel := jsOrNum (conversationData.overallEmotion.map (·.stressLevel)) 5
    energyLevel := jsOrNum (conversationData.overallEmotion.map (·.energyLevel)) 5
    satisfactionLevel := jsOrNum (conversationData.overallEmotion.map (·.satisfaction)) 5 }

/-- Insertion-ordered frequency table bump, modelling a JS object used as a
counter: a new key is appended, an existing key is incremented in place. -/
def bumpBy (acc : List (String × Nat)) (key : String) (n : Nat) :
    List (String × Nat) :=
  match acc with
  | [] => [(key, n)]
  | (k, v) :: rest =>
      if k = key then (k, v + n) :: rest else (k, v) :: bumpBy rest key n

/-- Single-increment form of `bumpBy`. -/
def bumpCount (acc : List (String × Nat)) (key : String) :
    List (String × Nat) :=
  bumpBy acc key 1

/-- `analyzeEmotionalContent(conversationData)`: frequency tables over the
analysed user messages, each cut to the top 5 by frequency (stable sort,
ties keep first-seen order). -/
def analyzeEmotionalContent (conversationData : ConversationData) :
    EmotionalInsightsBlock :=
  let analyzed := conversationData.messages.filter
    (fun msg => msg.type == "user" && msg.emotionAnalysis.isSome)
  let emotions := analyzed.foldl
    (fun acc msg =>
      match msg.emotionAnalysis with
      | some analysis =>
          if analysis.primaryEmotion = "" then acc
          else bumpCount acc analysis.primaryEmotion
      | none => acc) []
  let triggers := analyzed.foldl
    (fun acc msg =>
      match msg.emotionAnalysis with
      | some analysis => analysis.triggers.foldl bumpCount acc
      | none => acc) []
  let needs := analyzed.foldl
    (fun acc msg =>
      match msg.emotionAnalysis with
      | some analysis => analysis.needs.foldl bumpCount acc
      | none => acc) []
  { dominantEmotions :=
      (sortByLe (fun a b => decide (b.frequency ≤ a.frequency))
        (emotions.map (fun p =>
          ({ emotion := p.1, frequency := p.2, intensity := 5 } : DominantEmotion)))).take 5
    emotionalTriggers :=
      (sortByLe (fun a b => decide (b.frequency ≤ a.frequency))
        (triggers.map (fun p =>
          ({ trigger := p.1, frequency := p.2, impact := 5 } : TriggerEntry)))).take 5
    emotionalNeeds :=
      (sortByLe (fun a b => decide (b.frequency ≤ a.frequency))
        (needs.map (fun p =>
          ({ need := p.1, frequency := p.2, priority := 5 } : NeedEntry)))).take 5
    moodPatterns := [] }

/-- The fixed keyword-to-topic dictionary of the first `analyzeTopics`
definition. -/
def topicKeywords : List (String × List String) :=
  [("work", ["work", "job", "office", "meeting", "project", "deadline", "manager", "colleague"]),
   ("stress", ["stress", "stressed", "overwhelmed", "pressure", "anxiety", "worried"]),
   ("relationships", ["relationship", "family", "friend", "partner", "team", "social"]),
   ("health", ["health", "sick", "tired", "energy", "sleep", "exercise", "wellness"]),
   ("goals", ["goal", "future", "career", "plan", "dream", "aspiration", "ambition"])]

/-- The FIRST `analyzeTopics` definition of the class body: case-insensitive
keyword matching over user messages.  The class later defines a second
method of the same name, so this one is shadowed and is never the method
that `this.analyzeTopics` resolves to — it is dead code in the source. -/
def analyzeTopicsKeyword (conversationData : ConversationData) :
    List TopicEntry :=
  let userMessages := conversationData.messages.filter (fun msg => msg.type == "user")
  let topics := userMessages.foldl
    (fun acc msg =>
      let content := lowerString msg.content
      topicKeywords.foldl
        (fun acc2 p =>
          let matched := p.2.filter (fun keyword => containsSub content keyword)
          if matched.length > 0 then bumpBy acc2 p.1 matched.length else acc2) acc) []
  sortByLe (fun a b => decide (b.frequency ≤ a.frequency))
    (topics.map (fun p =>
      { topic := p.1
        frequency := p.2
        sentiment := 0
        keywords := ((topicKeywords.find? (fun q => q.1 == p.1)).map (·.2)).getD [] }))

/-- Insertion-ordered upsert used by the second `analyzeTopics` definition:
a new topic is appended with the keywords of its first occurrence; an
existing topic accumulates frequency and sentiment. -/
def upsertTopic (acc : List TopicEntry) (t : TopicEntry) : List TopicEntry :=
  match acc with
  | [] => [{ topic := t.topic, frequency := t.frequency,
             sentiment := t.sentiment, keywords := t.keywords }]
  | e :: rest =>
      if e.topic = t.topic then
        { e with frequency := e.frequency + t.frequency,
                 sentiment := e.sentiment + t.sentiment } :: rest
      else e :: upsertTopic rest t

/-- Body of the SECOND `analyzeTopics` definition, over the normalised
array of items: each item contributes its `topics` member when it has one
(`none` models an item without that member, whose access yields
`undefined`).  Sentiment is averaged over the item count, and the top 10
topics by frequency are returned. -/
def analyzeTopicsOnRecords (topicLists : List (Option (List TopicEntry))) :
    List TopicEntry :=
  let topics := topicLists.foldl
    (fun acc it =>
      match it with
      | none => acc
      | some ts => ts.foldl upsertTopic acc) []
  let topics2 :=
    if topics.length > 0 then
      topics.map (fun t => { t with sentiment := t.sentiment / (topicLists.length : ℚ) })
    else topics
  (sortByLe (fun a b => decide (b.frequency ≤ a.frequency)) topics2).take 10

/-- The effective `this.analyzeTopics(conversationData)` of the source: in
a JS class the later method definition wins, so the call inside
`analyzeConversation` and `generateRecommendations` resolves to the
analytics-record-based second definition.  The extracted conversation data
is not an array, so it is wrapped into a one-element array, and it has no
`topics` member, hence the single item contributes nothing. -/
def analyzeTopics (conversationData : ConversationData) : List TopicEntry :=
  analyzeTopicsOnRecords [none]

/-- `calculateQualityMetrics(conversationData, aiInsights)`. -/
def calculateQualityMetrics (conversationData : ConversationData)
    (aiInsights : AIInsights) : QualityMetrics :=
  let userMessages := conversationData.messages.filter (fun msg => msg.type == "user")
  let avgMessageLength :=
    if userMessages.length > 0 then
      ((userMessages.map (fun msg => (msg.content.length : ℚ))).sum) / (userMessages.length : ℚ)
    else 0
  { engagement := min 10 (max 1 (avgMessageLength / 10))
    openness := min 10 (max 1 ((userMessages.length : ℚ) * 2))
    trust := 7
    satisfaction := jsOrNum (conversationData.overallEmotion.map (·.satisfaction)) 5
    helpfulness := jsOrNum aiInsights.aiPerformance.helpfulness 7 }

/-- `generateRecommendations(conversationData, aiInsights)`: the stress
rule, then the well-being rule, then the topic rule, the latter over the
result of the effective (shadowed) `analyzeTopics`. -/
def generateRecommendations (conversationData : ConversationData)
    (aiInsights : AIInsights) : List Recommendation :=
  let recommendations :=
    (if jsGtNum (conversationData.overallEmotion.map (·.stressLevel)) 7 then
      [({ type := "emotional_support"
          priority := "high"
          description := "High stress levels detected. Consider stress management techniques."
          actionable := true } : Recommendation)]
     else []) ++
    (if jsLtNum (conversationData.overallEmotion.map (·.wellBeingScore)) 4 then
      [({ type := "personal_development"
          priority := "high"
          description := "Low well-being score. Focus on self-care and positive activities."
          actionable := true } : Recommendation)]
     else [])
  let topics := analyzeTopics conversationData
  recommendations ++
    (if topics.any (fun t => t.topic == "work" && decide (t.frequency > 3)) then
      [({ type := "workplace_improvement"
          priority := "medium"
          description := "Work-related concerns identified. Consider workplace support resources."
          actionable := true } : Recommendation)]
     else [])

/-- Result shape of `calculateAverageMetrics`. -/
structure AverageMetrics where
  wellBeingScore : ℚ
  stressLevel : ℚ
  satisfactionLevel : ℚ
  engagement : ℚ
deriving DecidableEq

/-- `calculateAverageMetrics(analytics)`. -/
def calculateAverageMetrics (analytics : List StoredAnalytics) : AverageMetrics :=
  let totals := analytics.foldl
    (fun acc curr =>
      ({ wellBeingScore := acc.wellBeingScore + curr.metrics.wellBeingScore
         stressLevel := acc.stressLevel + curr.metrics.stressLevel
         satisfactionLevel := acc.satisfactionLevel + curr.metrics.satisfactionLevel
         engagement := acc.engagement + curr.qualityMetrics.engagement } : AverageMetrics))
    { wellBeingScore := 0, stressLevel := 0, satisfactionLevel := 0, engagement := 0 }
  { wellBeingScore := totals.wellBeingScore / (analytics.length : ℚ)
    stressLevel := totals.stressLevel / (analytics.length : ℚ)
    satisfactionLevel := totals.satisfactionLevel / (analytics.length : ℚ)
    engagement := totals.engagement / (analytics.length : ℚ) }

/-- Entry of the dashboard `emotionalTrends` list. -/
structure EmotionFreq where
  emotion : String
  frequency : Nat
deriving DecidableEq

/-- Entry of the dashboard `topTopics` list. -/
structure TopicFreq where
  topic : String
  frequency : Nat
deriving DecidableEq

/-- Entry of the dashboard `recommendations` list. -/
structure RecCount where
  type : String
  priority : String
  count : Nat
deriving DecidableEq

/-- Entry of the dashboard `timeRange` list. -/
structure TimeRangePoint where
  date : Int
  wellBeing : ℚ
  stress : ℚ
  satisfaction : ℚ
deriving DecidableEq

/-- Result shape of the dashboard rollup. -/
structure DashboardOverview where
  totalConversations : Nat
  avgWellBeing : ℚ
  avgStress : ℚ
  avgSatisfaction : ℚ
  avgEngagement : ℚ
deriving DecidableEq

/-- Aggregated dashboard analytics. -/
structure DashboardResult where
  overview : DashboardOverview
  emotionalTrends : List EmotionFreq
  topTopics : List TopicFreq
  recommendations : List RecCount
  timeRange : List TimeRangePoint
deriving DecidableEq

/-- `calculateEmotionalTrends(analytics)`: cross-record frequency of each
dominant emotion, top 5. -/
def calculateEmotionalTrends (analytics : List StoredAnalytics) :
    List EmotionFreq :=
  let emotions := analytics.foldl
    (fun acc a =>
      a.emotionalInsights.dominantEmotions.foldl
        (fun acc2 emotion => bumpBy acc2 emotion.emotion emotion.frequency) acc) []
  ((sortByLe (fun a b => decide (b.frequency ≤ a.frequency))
    (emotions.map (fun p => ({ emotion := p.1, frequency := p.2 } : EmotionFreq))))).take 5

/-- `calculateTopTopics(analytics)`: cross-record frequency of each topic,
top 5. -/
def calculateTopTopics (analytics : List StoredAnalytics) : List TopicFreq :=
  let topics := analytics.foldl
    (fun acc a =>
      a.topics.foldl (fun acc2 topic => bumpBy acc2 topic.topic topic.frequency) acc) []
  ((sortByLe (fun a b => decide (b.frequency ≤ a.frequency))
    (topics.map (fun p => ({ topic := p.1, frequency := p.2 } : TopicFreq))))).take 5

/-- `aggregateRecommendations(analytics)`: counts keyed by the
`type-priority` string, split back apart at the end as in the source. -/
def aggregateRecommendations (analytics : List StoredAnalytics) :
    List RecCount :=
  let recommendations := analytics.foldl
    (fun acc a =>
      a.recommendations.foldl
        (fun acc2 r => bumpCount acc2 (r.type ++ "-" ++ r.priority)) acc) []
  sortByLe (fun a b => decide (b.count ≤ a.count))
    (recommendations.map (fun p =>
      match p.1.splitOn "-" with
      | t :: pr :: _ => ({ type := t, priority := pr, count := p.2 } : RecCount)
      | [t] => ({ type := t, priority := "", count := p.2 } : RecCount)
      | [] => ({ type := "", priority := "", count := p.2 } : RecCount)))

/-- `getEmptyAnalytics()`: the documented all-zero/empty dashboard
structure. -/
def getEmptyAnalytics : DashboardResult :=
  { overview :=
      { totalConversations := 0
        avgWellBeing := 0
        avgStress := 0
        avgSatisfaction := 0
        avgEngagement := 0 }
    emotionalTrends := []
    topTopics := []
    recommendations := []
    timeRange := [] }

/-- `aggregateAnalytics(analytics)`. -/
def aggregateAnalytics (analytics : List StoredAnalytics) : DashboardResult :=
  if analytics.length = 0 then getEmptyAnalytics
  else
    let avgMetrics := calculateAverageMetrics analytics
    { overview :=
        { totalConversations := analytics.length
          avgWellBeing := avgMetrics.wellBeingScore
          avgStress := avgMetrics.stressLevel
          avgSatisfaction := avgMetrics.satisfactionLevel
          avgEngagement := avgMetrics.engagement }
      emotionalTrends := calculateEmotionalTrends analytics
      topTopics := calculateTopTopics analytics
      recommendations := aggregateRecommendations analytics
      timeRange := analytics.map (fun a =>
        { date := a.date
          wellBeing := a.metrics.wellBeingScore
          stress := a.metrics.stressLevel
          satisfaction := a.metrics.satisfactionLevel }) }

/-- Time window of a dashboard request: a rolling day count (`30d`) or an
explicit start/end pair. -/
inductive TimeRangeQuery
  | days (n : Nat)
  | custom (startDate endDate : Int)
deriving DecidableEq

/-- The store query issued by `getDashboardAnalytics`: records of the
calling tenant inside the window, newest first. -/
def dashboardQuery (db : Db) (tenantId : Nat) (timeRange : TimeRangeQuery)
    (now : Int) : List StoredAnalytics :=
  match timeRange with
  | .custom startDate endDate =>
      sortByLe (fun a b => decide (b.date ≤ a.date))
        (db.conversationAnalytics.filter
          (fun a => decide (a.tenantId = tenantId ∧ startDate ≤ a.date ∧ a.date ≤ endDate)))
  | .days n =>
      let startDate := now - (n : Int) * 86400000
      sortByLe (fun a b => decide (b.date ≤ a.date))
        (db.conversationAnalytics.filter
          (fun a => decide (a.tenantId = tenantId ∧ startDate ≤ a.date)))

/-- `getDashboardAnalytics(tenantId, timeRange)`. -/
def getDashboardAnalytics (db : Db) (tenantId : Nat)
    (timeRange : TimeRangeQuery) (now : Int) : DashboardResult :=
  aggregateAnalytics (dashboardQuery db tenantId timeRange now)

/-- `getTimeOfDay(date)`: fixed hour boundaries. -/
def getTimeOfDay (date : DateTime) : String :=
  if date.hour < 6 then "night"
  else if date.hour < 12 then "morning"
  else if date.hour < 18 then "afternoon"
  else "evening"

/-- `getDayOfWeek(date)`. -/
def getDayOfWeek (date : DateTime) : String :=
  ["sunday", "monday", "tuesday", "wednesday", "thursday", "friday",
   "saturday"].getD date.dayIdx ""

/-- `getSeason(date)`: month buckets of three. -/
def getSeason (date : DateTime) : String :=
  if date.month < 3 then "spring"
  else if date.month < 6 then "summer"
  else if date.month < 9 then "autumn"
  else "winter"

/-- `calculateEnvironmentalImpact(contextualFactors)`. -/
def calculateEnvironmentalImpact (contextualFactors : ContextualFactors) : ℚ :=
  let impact : ℚ := 0
  let impact := if jsGtNum contextualFactors.workload 7 then impact - 2 else impact
  let impact := if contextualFactors.weather == some "sunny" then impact + 1 else impact
  let impact := if contextualFactors.location == some "home" then impact + 1 else impact
  max (-5) (min 5 impact)

/-- `identifyEnvironmentalStressors(contextualFactors)`. -/
def identifyEnvironmentalStressors (contextualFactors : ContextualFactors) :
    List String :=
  (if jsGtNum contextualFactors.workload 7 then ["high_workload"] else []) ++
  (if contextualFactors.weather == some "stormy" then ["bad_weather"] else []) ++
  (if contextualFactors.location == some "office" then ["work_environment"] else [])

/-- `identifyEnvironmentalSupports(contextualFactors)`. -/
def identifyEnvironmentalSupports (contextualFactors : ContextualFactors) :
    List String :=
  (if contextualFactors.weather == some "sunny" then ["good_weather"] else []) ++
  (if contextualFactors.location == some "home" then ["comfortable_environment"] else [])

/-- `analyzeContextualFactors(conversation)`.  The source reads
`const now = new Date()` — the wall clock at the moment the analysis runs,
passed here as the explicit `now` argument — and derives the time-of-day,
day-of-week and season fields from it; the creation time stored on the
conversation document is not consulted. -/
def analyzeContextualFactors (conversation : StoredConversation)
    (now : DateTime) : ContextualAnalysis :=
  let contextualFactors := conversation.contextualFactors.getD {}
  { timeOfDay := getTimeOfDay now
    dayOfWeek := getDayOfWeek now
    season := getSeason now
    externalEvents := contextualFactors.externalEvents.getD []
    workload := jsOrNum contextualFactors.workload 5
    weather := jsOrStr contextualFactors.weather "unknown"
    location := jsOrStr contextualFactors.location "unknown"
    device := jsOrStr contextualFactors.device "unknown"
    impactOnMood := calculateEnvironmentalImpact contextualFactors
    environmentalStressors := identifyEnvironmentalStressors contextualFactors
    environmentalSupports := identifyEnvironmentalSupports contextualFactors }

/-- `calculatePreviousMood(recentConversations)` over the newest-first
history. -/
def calculatePreviousMood (recentConversations : List StoredConversation) : ℚ :=
  match recentConversations with
  | [] => 5
  | lastConversation :: _ =>
      jsOrNum (lastConversation.overallEmotion.map (·.wellBeingScore)) 5

/-- `calculateTrendDirection(recentConversations)` over the newest-first
history: guards for a short history, then the mean of the 3 most recent
well-being scores against the mean of the next 3 older ones. -/
def calculateTrendDirection (recentConversations : List StoredConversation) :
    String :=
  if recentConversations.length < 2 then "stable"
  else
    let recent := recentConversations.take 3
    let older := (recentConversations.drop 3).take 3
    if recent.length = 0 ∨ older.length = 0 then "stable"
    else
      let recentAvg :=
        ((recent.map (fun c => jsOrNum (c.overallEmotion.map (·.wellBeingScore)) 5)).sum) /
          (recent.length : ℚ)
      let olderAvg :=
        ((older.map (fun c => jsOrNum (c.overallEmotion.map (·.wellBeingScore)) 5)).sum) /
          (older.length : ℚ)
      if recentAvg > olderAvg + 1/2 then "improving"
      else if recentAvg < olderAvg - 1/2 then "declining"
      else "stable"

/-- `identifyRecurringThemes(recentConversations)`: key topics occurring in
more than one conversation of the history. -/
def identifyRecurringThemes (recentConversations : List StoredConversation) :
    List String :=
  let themes := recentConversations.foldl
    (fun acc conv =>
      match conv.insights with
      | some insights => insights.keyTopics.foldl bumpCount acc
      | none => acc) []
  (themes.filter (fun p => decide (p.2 > 1))).map (·.1)

/-- `calculateProgressIndicators(recentConversations)`: fixed mock
values. -/
def calculateProgressIndicators (recentConversations : List StoredConversation) :
    ProgressIndicators :=
  { emotionalGrowth := 6, stressManagement := 7, selfAwareness := 6,
    copingStrategies := 5 }

/-- `calculateBaselineComparison(conversationData, userProfile)`; a `none`
difference models the `NaN` produced when `overallEmotion` is absent. -/
def calculateBaselineComparison (conversationData : ConversationData)
    (userProfile : Option UserProfile) : BaselineComparison :=
  match userProfile.bind (·.baselineMetrics) with
  | none =>
      { moodVsBaseline := some 0, stressVsBaseline := some 0,
        energyVsBaseline := some 0, satisfactionVsBaseline := some 0 }
  | some bm =>
      let baseline := bm.emotionalBaseline
      { moodVsBaseline :=
          conversationData.overallEmotion.map (fun oe => oe.wellBeingScore - baseline.mood)
        stressVsBaseline :=
          conversationData.overallEmotion.map (fun oe => oe.stressLevel - baseline.stress)
        energyVsBaseline :=
          conversationData.overallEmotion.map (fun oe => oe.energyLevel - baseline.energy)
        satisfactionVsBaseline :=
          conversationData.overallEmotion.map (fun oe => oe.satisfaction - baseline.satisfaction) }

/-- `analyzeTrends(recentConversations)`: fixed mock values. -/
def analyzeTrends (recentConversations : List StoredConversation) :
    TrendAnalysis :=
  { shortTermTrend := "stable", mediumTermTrend := "improving",
    longTermTrend := "stable", volatilityIndex := 3 }

/-- The 90-day history fetch of `analyzeHistoricalContext`: the calling
user and tenant, conversations created within the last 90 days, newest
first. -/
def recentConversationsQuery (db : Db) (userId tenantId : Nat)
    (now : DateTime) : List StoredConversation :=
  sortByLe (fun a b => decide (b.createdAt.epochMs ≤ a.createdAt.epochMs))
    (db.emotionConversations.filter
      (fun c => decide (c.userId = userId ∧ c.tenantId = tenantId ∧
        now.epochMs - 90 * 24 * 60 * 60 * 1000 ≤ c.createdAt.epochMs)))

/-- `analyzeHistoricalContext(userId, tenantId, conversationData)`. -/
def analyzeHistoricalContext (db : Db) (userId tenantId : Nat)
    (conversationData : ConversationData) (now : DateTime) :
    HistoricalAnalysis :=
  let userProfile := db.userProfiles.find?
    (fun p => decide (p.userId = userId ∧ p.tenantId = tenantId))
  let recentConversations := recentConversationsQuery db userId tenantId now
  { previousMood := calculatePreviousMood recentConversations
    trendDirection := calculateTrendDirection recentConversations
    recurringThemes := identifyRecurringThemes recentConversations
    progressIndicators := calculateProgressIndicators recentConversations
    baselineComparison := calculateBaselineComparison conversationData userProfile
    trendAnalysis := analyzeTrends recentConversations }

/-- `getDefaultHistoricalAnalysis()`: the catch-path payload; the embedded
store cannot fail, so it is unreachable here, kept for the record. -/
def getDefaultHistoricalAnalysis : HistoricalAnalysis :=
  { previousMood := 5
    trendDirection := "stable"
    recurringThemes := []
    progressIndicators :=
      { emotionalGrowth := 5, stressManagement := 5, selfAwareness := 5,
        copingStrategies := 5 }
    baselineComparison :=
      { moodVsBaseline := some 0, stressVsBaseline := some 0,
        energyVsBaseline := some 0, satisfactionVsBaseline := some 0 }
    trendAnalysis :=
      { shortTermTrend := "stable", mediumTermTrend := "stable",
        longTermTrend := "stable", volatilityIndex := 5 } }

/-- `getDefaultPredictiveInsights()`: fallback payload of
`generatePredictiveInsights`. -/
def getDefaultPredictiveInsights : PredictiveInsights :=
  { riskFactors := []
    improvementAreas := []
    successIndicators := []
    interventionRecommendations := []
    predictedOutcomes :=
      { nextWeekMood := 5, nextWeekStress := 5, nextWeekEnergy := 5,
        confidence := 1/2 }
    earlyWarningSignals := []
    opportunityAreas := [] }

/-- `generatePredictiveInsights(conversationData, historicalAnalysis)`: the
parsed reply is returned as-is — no clamping of its numeric fields — and
any throw or parse failure yields `getDefaultPredictiveInsights`. -/
def generatePredictiveInsights (conversationData : ConversationData)
    (historicalAnalysis : HistoricalAnalysis)
    (llm : Option PredictiveInsights) : PredictiveInsights :=
  match llm with
  | some parsed => parsed
  | none => getDefaultPredictiveInsights

/-- Shape of the mock peer data of `getPeerComparisonData`. -/
structure PeerData where
  department : PeerMetric
  role : PeerMetric
  experience : PeerMetric
deriving DecidableEq

/-- `getPeerComparisonData(tenantId, userProfile)`: fixed mock values. -/
def getPeerComparisonData (tenantId : Nat) (userProfile : Option UserProfile) :
    PeerData :=
  { department := { avgWellBeing := 6.5, avgStress := 5.2 }
    role := { avgWellBeing := 6.8, avgStress := 4.9 }
    experience := { avgWellBeing := 7.1, avgStress := 4.5 } }

/-- Shape of the mock industry benchmarks. -/
structure IndustryBenchmarksData where
  average : BenchmarkAvg
  bestPractices : List String
deriving DecidableEq

/-- `getIndustryBenchmarks()`: fixed mock values. -/
def getIndustryBenchmarks : IndustryBenchmarksData :=
  { average := { wellBeing := 6.5, stress := 5.0, satisfaction := 6.8 }
    bestPractices :=
      ["regular_check_ins", "stress_management_training", "work_life_balance"] }

/-- `calculatePercentileRanking(metrics, peerData)`: fixed mock value. -/
def calculatePercentileRanking (metrics : Metrics) (peerData : PeerData) : ℚ :=
  75

/-- `compareToBenchmarks(metrics, benchmarks)`. -/
def compareToBenchmarks (metrics : Metrics)
    (benchmarks : IndustryBenchmarksData) : BenchmarkAvg :=
  { wellBeing := metrics.wellBeingScore - benchmarks.average.wellBeing
    stress := metrics.stressLevel - benchmarks.average.stress
    satisfaction := metrics.satisfactionLevel - benchmarks.average.satisfaction }

/-- Shape of the mock personal baseline. -/
structure PersonalBaselineData where
  average : BenchmarkAvg
  improvementAreas : List String
  strengthAreas : List String
deriving DecidableEq

/-- `calculatePersonalBaseline(userId, tenantId)`: fixed mock values. -/
def calculatePersonalBaseline (userId tenantId : Nat) : PersonalBaselineData :=
  { average := { wellBeing := 6.2, stress := 5.5, satisfaction := 6.5 }
    improvementAreas := ["stress_management", "work_life_balance"]
    strengthAreas := ["emotional_awareness", "communication"] }

/-- `generateComparativeAnalytics(userId, tenantId, metrics)`. -/
def generateComparativeAnalytics (db : Db) (userId tenantId : Nat)
    (metrics : Metrics) : ComparativeAnalytics :=
  let userProfile := db.userProfiles.find?
    (fun p => decide (p.userId = userId ∧ p.tenantId = tenantId))
  let peerData := getPeerComparisonData tenantId userProfile
  let industryBenchmarks := getIndustryBenchmarks
  let personalBaseline := calculatePersonalBaseline userId tenantId
  { peerComparison :=
      { departmentAverage := peerData.department
        roleAverage := peerData.role
        experienceLevelAverage := peerData.experience
        percentileRanking := calculatePercentileRanking metrics peerData }
    industryBenchmarks :=
      { industryAverage := industryBenchmarks.average
        bestPractices := industryBenchmarks.bestPractices
        benchmarkComparison := compareToBenchmarks metrics industryBenchmarks }
    personalBaseline :=
      { historicalAverage := personalBaseline.average
        improvementAreas := personalBaseline.improvementAreas
        strengthAreas := personalBaseline.strengthAreas } }

/-- `initializeActionTracking(recommendations)`; `now` is the epoch
millisecond clock read by `new Date()` / `Date.now()`. -/
def initializeActionTracking (recommendations : List Recommendation)
    (now : Int) : ActionTracking :=
  { recommendationsGiven := recommendations.map (fun r =>
      { type := r.type, description := r.description, priority := r.priority,
        givenAt := now })
    actionsTaken := []
    followUpRequired := recommendations.any (fun r => r.priority == "high")
    followUpDate := now + 7 * 24 * 60 * 60 * 1000
    interventionHistory := [] }

/-- Assembly of the ConversationAnalytics record by `analyzeConversation`
once the conversation has been fetched.  The two external calls are the
`aiLlm` and `predLlm` arguments. -/
def buildAnalyticsRecord (db : Db) (conversation : StoredConversation)
    (conversationId tenantId userId : Nat) (aiLlm : Option AIInsights)
    (predLlm : Option PredictiveInsights) (now : DateTime) :
    ConversationAnalyticsRecord :=
  let conversationData := extractConversationData conversation
  let aiInsights := generateAIInsights conversationData aiLlm
  let metrics := calculateMetrics conversationData
  let emotionalInsights := analyzeEmotionalContent conversationData
  let topics := analyzeTopics conversationData
  let qualityMetrics := calculateQualityMetrics conversationData aiInsights
  let recommendations := generateRecommendations conversationData aiInsights
  let contextualAnalysis := analyzeContextualFactors conversation now
  let historicalAnalysis := analyzeHistoricalContext db userId tenantId conversationData now
  let predictiveInsights := generatePredictiveInsights conversationData historicalAnalysis predLlm
  let comparativeAnalytics := generateComparativeAnalytics db userId tenantId metrics
  let actionTracking := initializeActionTracking recommendations now.epochMs
  { tenantId := tenantId
    userId := userId
    conversationId := conversationId
    conversationType := conversation.conversationType
    metrics := metrics
    emotionalInsights := emotionalInsights
    topics := topics
    qualityMetrics := qualityMetrics
    aiPerformance := aiInsights.aiPerformance
    recommendations := recommendations
    conversationSummary := aiInsights.summary
    contextualAnalysis := contextualAnalysis
    historicalAnalysis := historicalAnalysis
    predictiveInsights := predictiveInsights
    comparativeAnalytics := comparativeAnalytics
    actionTracking := actionTracking }

/-- `analyzeConversation(conversationId, tenantId, userId)`: the
conversation is fetched with `findById(conversationId)` — by its globally
unique id alone, with no tenant filter — and the full record is assembled
and saved. -/
def analyzeConversation (db : Db) (conversationId tenantId userId : Nat)
    (aiLlm : Option AIInsights) (predLlm : Option PredictiveInsights)
    (now : DateTime) : Except String ConversationAnalyticsRecord :=
  match db.emotionConversations.find? (fun c => decide (c.id = conversationId)) with
  | none => Except.error "Conversation not found"
  | some conversation =>
      Except.ok (buildAnalyticsRecord db conversation conversationId tenantId
        userId aiLlm predLlm now)

/-- Outcome of the respond route. -/
inductive RespondResult
  | notFound
  | ok (emotionAnalysis : EmotionAnalysis) (questionCount : Nat)
deriving DecidableEq

/-- The respond route `POST /:sessionId/respond`: the conversation is
looked up by session id, tenant, user AND `status: in_progress`; a miss is
a 404 that leaves the store untouched, a hit appends one question entry
with its freshly computed emotion analysis and saves. -/
def respond (db : Db) (sessionId : String) (tenantId userId : Nat)
    (questionId questionText userResponse : String)
    (llm : Option RawEmotionPayload) (now : Int) : RespondResult × Db :=
  match db.emotionConversations.find?
    (fun c => decide (c.sessionId = sessionId ∧ c.tenantId = tenantId ∧
      c.userId = userId ∧ c.status = ConvStatus.in_progress)) with
  | none => (RespondResult.notFound, db)
  | some conversation =>
      let emotionAnalysis := analyzeEmotion userResponse "workplace" llm
      let updated := { conversation with
        questions := conversation.questions ++
          [{ questionId := questionId, questionText := questionText,
             userResponse := userResponse, emotionAnalysis := emotionAnalysis,
             timestamp := now }] }
      (RespondResult.ok emotionAnalysis updated.questions.length,
       { db with emotionConversations :=
          (db.emotionConversations.map
            (fun c => if c.id = conversation.id then updated else c)) })

/-! Concrete sample data used by the theorems below. -/

/-- A completed conversation with high stress, low well-being and four
work-topic keywords (job, office, meeting, project) across its user
messages, already in extracted form. -/
def workConversationData : ConversationData :=
  { messages :=
      [{ type := "ai", content := "How was your day", timestamp := 0,
         emotionAnalysis := none },
       { type := "user", content := "The job at the office was hard",
         timestamp := 0, emotionAnalysis := none },
       { type := "ai", content := "Tell me more", timestamp := 0,
         emotionAnalysis := none },
       { type := "user", content := "A meeting about the project ran long",
         timestamp := 0, emotionAnalysis := none }]
    totalDuration := 0
    responseTimes := []
    conversationType := "daily"
    overallEmotion := some
      { dominantEmotion := "stress", averageIntensity := 6,
        emotionalState := "tense", wellBeingScore := 3, stressLevel := 8,
        energyLevel := 4, satisfaction := 4 }
    insights := none }

/-- A conversation stored under tenant 2. -/
def tenantTwoConversation : StoredConversation :=
  { id := 1, tenantId := 2, userId := 3, sessionId := "s-b",
    conversationType := "weekly", questions := [], overallEmotion := none,
    insights := none, status := ConvStatus.completed,
    createdAt := { epochMs := 0, hour := 9, dayIdx := 1, month := 0 },
    completedAt := none, contextualFactors := none }

/-- A store holding only the tenant-2 conversation. -/
def crossTenantDb : Db :=
  { emotionConversations := [tenantTwoConversation], userProfiles := [],
    conversationAnalytics := [] }

/-- A completed conversation with a given id, creation instant and
well-being score, used to build trend histories. -/
def wbConversation (id : Nat) (epochMs : Int) (wb : ℚ) : StoredConversation :=
  { id := id, tenantId := 1, userId := 4, sessionId := "s-" ++ toString id,
    conversationType := "daily", questions := [],
    overallEmotion := some
      { dominantEmotion := "neutral", averageIntensity := 5,
        emotionalState := "balanced", wellBeingScore := wb, stressLevel := 5,
        energyLevel := 5, satisfaction := 5 },
    insights := none, status := ConvStatus.completed,
    createdAt := { epochMs := epochMs, hour := 9, dayIdx := 1, month := 0 },
    completedAt := none, contextualFactors := none }

/-- A store holding a two-conversation history for user 4 of tenant 1:
well-being 4 (older) then 8 (newer). -/
def trendDb : Db :=
  { emotionConversations := [wbConversation 10 1000 4, wbConversation 11 2000 8]
    userProfiles := []
    conversationAnalytics := [] }

/-- Mean of the well-being scores of the 3 most recent conversations of a
newest-first history. -/
def recentAvg3 (l : List StoredConversation) : ℚ :=
  ((l.take 3).map (fun c => jsOrNum (c.overallEmotion.map (·.wellBeingScore)) 5)).sum /
    (((l.take 3)).length : ℚ)

/-- Mean of the well-being scores of the next 3 older conversations of a
newest-first history. -/
def olderAvg3 (l : List StoredConversation) : ℚ :=
  (((l.drop 3).take 3).map (fun c => jsOrNum (c.overallEmotion.map (·.wellBeingScore)) 5)).sum /
    ((((l.drop 3)).take 3).length : ℚ)

/-- A four-conversation newest-first history. -/
def fourConversationHistory : List StoredConversation :=
  [wbConversation 21 4000 8, wbConversation 22 3000 8,
   wbConversation 23 2000 8, wbConversation 24 1000 1]

/-- A conversation created in the evening (hour 23). -/
def eveningConversation : StoredConversation :=
  { id := 7, tenantId := 1, userId := 5, sessionId := "s-e",
    conversationType := "daily", questions := [], overallEmotion := none,
    insights := none, status := ConvStatus.completed,
    createdAt := { epochMs := 0, hour := 23, dayIdx := 5, month := 6 },
    completedAt := none, contextualFactors := none }

/-- An analysis-time clock in the morning (hour 8). -/
def morningNow : DateTime := { epochMs := 500, hour := 8, dayIdx := 2, month := 0 }

/-- A stored analytics record belonging to tenant 2, used to populate a
store that tenant 1 then queries. -/
def tenantTwoAnalytics : StoredAnalytics :=
  { tenantId := 2, userId := 3, date := 0, conversationType := "daily"
    metrics :=
      { totalMessages := 0, userMessages := 0, aiMessages := 0,
        conversationDuration := 0, averageResponseTime := 0,
        sentimentScore := 0, emotionalIntensity := 5, wellBeingScore := 5,
        stressLevel := 5, energyLevel := 5, satisfactionLevel := 5 }
    qualityMetrics :=
      { engagement := 1, openness := 1, trust := 7, satisfaction := 5,
        helpfulness := 7 }
    emotionalInsights :=
      { dominantEmotions := [], emotionalTriggers := [], emotionalNeeds := [],
        moodPatterns := [] }
    topics := []
    recommendations := [] }

/-- A store whose only analytics record belongs to tenant 2. -/
def otherTenantAnalyticsDb : Db :=
  { emotionConversations := [], userProfiles := [],
    conversationAnalytics := [tenantTwoAnalytics] }

/-- A store holding one completed conversation of tenant 1 / user 2 under
session `s1`. -/
def completedSessionDb : Db :=
  { emotionConversations :=
      [{ id := 1, tenantId := 1, userId := 2, sessionId := "s1",
         conversationType := "daily", questions := [], overallEmotion := none,
         insights := none, status := ConvStatus.completed,
         createdAt := { epochMs := 0, hour := 9, dayIdx := 1, month := 0 },
         completedAt := some 10, contextualFactors := none }]
    userProfiles := []
    conversationAnalytics := [] }

/-! Helper lemmas. -/

/-- Lower bound of the `Math.max(lo, Math.min(hi, x))` clamp. -/
lemma le_clamp (lo hi x : ℚ) : lo ≤ max lo (min hi x) := le_max_left lo _

/-- Upper bound of the `Math.max(lo, Math.min(hi, x))` clamp. -/
lemma clamp_le (lo hi x : ℚ) (h : lo ≤ hi) : max lo (min hi x) ≤ hi :=
  max_le h (min_le_left hi x)

/-- Bounds of the three clamped numeric fields of the per-response
scoring. -/
lemma analyzeEmotion_bounds (text context : String)
    (llm : Option RawEmotionPayload) :
    (1 ≤ (analyzeEmotion text context llm).intensity ∧
      (analyzeEmotion text context llm).intensity ≤ 10) ∧
    (0 ≤ (analyzeEmotion text context llm).confidence ∧
      (analyzeEmotion text context llm).confidence ≤ 1) ∧
    (-1 ≤ (analyzeEmotion text context llm).sentiment ∧
      (analyzeEmotion text context llm).sentiment ≤ 1) := by
  cases llm with
  | none => refine ⟨⟨?_, ?_⟩, ⟨?_, ?_⟩, ⟨?_, ?_⟩⟩ <;> norm_num [analyzeEmotion]
  | some a =>
      exact ⟨⟨le_clamp 1 10 _, clamp_le 1 10 _ (by norm_num)⟩,
        ⟨le_clamp 0 1 _, clamp_le 0 1 _ (by norm_num)⟩,
        ⟨le_clamp (-1) 1 _, clamp_le (-1) 1 _ (by norm_num)⟩⟩

/-- Bounds of the five clamped numeric fields of the whole-conversation
summary. -/
lemma analyzeOverallEmotion_bounds (conversation : StoredConversation)
    (ollm : Option RawOverallPayload) :
    (1 ≤ (analyzeOverallEmotion conversation ollm).averageIntensity ∧
      (analyzeOverallEmotion conversation ollm).averageIntensity ≤ 10) ∧
    (1 ≤ (analyzeOverallEmotion conversation ollm).wellBeingScore ∧
      (analyzeOverallEmotion conversation ollm).wellBeingScore ≤ 10) ∧
    (1 ≤ (analyzeOverallEmotion conversation ollm).stressLevel ∧
      (analyzeOverallEmotion conversation ollm).stressLevel ≤ 10) ∧
    (1 ≤ (analyzeOverallEmotion conversation ollm).energyLevel ∧
      (analyzeOverallEmotion conversation ollm).energyLevel ≤ 10) ∧
    (1 ≤ (analyzeOverallEmotion conversation ollm).satisfaction ∧
      (analyzeOverallEmotion conversation ollm).satisfaction ≤ 10) := by
  cases ollm with
  | none =>
      refine ⟨⟨?_, ?_⟩, ⟨?_, ?_⟩, ⟨?_, ?_⟩, ⟨?_, ?_⟩, ⟨?_, ?_⟩⟩ <;>
        norm_num [analyzeOverallEmotion]
  | some a =>
      exact ⟨⟨le_clamp 1 10 _, clamp_le 1 10 _ (by norm_num)⟩,
        ⟨le_clamp 1 10 _, clamp_le 1 10 _ (by norm_num)⟩,
        ⟨le_clamp 1 10 _, clamp_le 1 10 _ (by norm_num)⟩,
        ⟨le_clamp 1 10 _, clamp_le 1 10 _ (by norm_num)⟩,
        ⟨le_clamp 1 10 _, clamp_le 1 10 _ (by norm_num)⟩⟩

/-! Claim theorems. -/

/-- C1: the claim expects `generateRecommendations` on a conversation with
stress 8, well-being 3 and four work-keyword occurrences to emit the three
entries emotional_support/high, personal_development/high and
workplace_improvement/medium.  Evaluating the code at that input: only the
first two are emitted.  The shadowed first `analyzeTopics` definition
would count the topic `work` with frequency 4 (> 3), but the effective
method resolution returns the empty topic list, so the workplace rule can
never fire. -/
theorem c1_workplace_rule_dead :
    ((generateRecommendations workConversationData getDefaultInsights).map
      (fun r => (r.type, r.priority)) =
      [("emotional_support", "high"), ("personal_development", "high")]) ∧
    (((analyzeTopicsKeyword workConversationData).find?
      (fun t => t.topic == "work")).map (fun t => t.frequency) = some 4) ∧
    (analyzeTopics workConversationData = []) :=
  ⟨rfl, rfl, rfl⟩

/-- C2: the claim says every read of the pipeline filters by the caller
tenant id.  Evaluating the code: `analyzeConversation` invoked by a caller
of tenant 1 on conversation id 1, which is stored under tenant 2, succeeds
— the conversation is fetched by id alone — and produces a record for
tenant 1 whose conversation type is copied from the tenant-2 document. -/
theorem c2_cross_tenant_read :
    ((analyzeConversation crossTenantDb 1 1 3 none none
        { epochMs := 0, hour := 9, dayIdx := 1, month := 0 }).toOption.map
      (fun r => (r.tenantId, r.conversationType)) = some (1, "weekly")) ∧
    ((crossTenantDb.emotionConversations.find? (fun c => decide (c.id = 1))).map
      (fun c => c.tenantId) = some 2) ∧
    (1 ≠ 2) :=
  ⟨rfl, rfl, by decide⟩

/-- C3 counterexample: for the two-conversation history with well-being
scores 4 then 8 (oldest first), the code returns trend direction
`stable`, not `improving`: the older comparison window (conversations 4
to 6 of the newest-first history) is empty, which short-circuits to
`stable` before any mean is compared. -/
theorem c3_two_conversation_history_stable :
    ((recentConversationsQuery trendDb 4 1
        { epochMs := 2000, hour := 9, dayIdx := 1, month := 0 }).map
      (fun c => jsOrNum (c.overallEmotion.map (·.wellBeingScore)) 5) = [8, 4]) ∧
    ((analyzeHistoricalContext trendDb 4 1
        { messages := [], totalDuration := 0, responseTimes := [],
          conversationType := "daily", overallEmotion := none, insights := none }
        { epochMs := 2000, hour := 9, dayIdx := 1, month := 0 }).trendDirection =
      "stable") ∧
    (("stable" : String) ≠ "improving") :=
  ⟨rfl, rfl, by decide⟩

/-- C3 amended: the recent-versus-older mean comparison with the 0.5
threshold holds exactly when the history is long enough for the older
window to be non-empty (at least 4 conversations, newest first); shorter
histories — in particular the two-conversation history of the claim —
yield `stable`. -/
theorem c3_trend_window_rule (l : List StoredConversation)
    (h : 4 ≤ l.length) :
    calculateTrendDirection l =
      (if recentAvg3 l > olderAvg3 l + 1/2 then "improving"
       else if recentAvg3 l < olderAvg3 l - 1/2 then "declining"
       else "stable") := by
  have h2 : ¬(l.length < 2) := by omega
  have h3 : ¬((l.take 3).length = 0 ∨ ((l.drop 3).take 3).length = 0) := by
    rw [List.length_take, List.length_take, List.length_drop]
    omega
  simp only [calculateTrendDirection, recentAvg3, olderAvg3]
  rw [if_neg h2, if_neg h3]

/-- C3 amended witness: a concrete four-conversation history satisfies the
length hypothesis and the rule. -/
theorem c3_trend_window_rule_witness :
    4 ≤ fourConversationHistory.length ∧
    calculateTrendDirection fourConversationHistory =
      (if recentAvg3 fourConversationHistory > olderAvg3 fourConversationHistory + 1/2
       then "improving"
       else if recentAvg3 fourConversationHistory < olderAvg3 fourConversationHistory - 1/2
       then "declining"
       else "stable") :=
  ⟨by decide, c3_trend_window_rule fourConversationHistory (by decide)⟩

/-- C4: for every provider payload — including out-of-range or missing
numeric fields — the per-response scoring and the whole-conversation summary
return values inside their documented bounds: intensity and
averageIntensity in [1,10], confidence in [0,1], sentiment in [-1,1], and
the four summary scores in [1,10]. -/
theorem c4_extraction_bounds (text context : String)
    (llm : Option RawEmotionPayload) (conversation : StoredConversation)
    (ollm : Option RawOverallPayload) :
    (1 ≤ (analyzeEmotion text context llm).intensity ∧
      (analyzeEmotion text context llm).intensity ≤ 10) ∧
    (0 ≤ (analyzeEmotion text context llm).confidence ∧
      (analyzeEmotion text context llm).confidence ≤ 1) ∧
    (-1 ≤ (analyzeEmotion text context llm).sentiment ∧
      (analyzeEmotion text context llm).sentiment ≤ 1) ∧
    (1 ≤ (analyzeOverallEmotion conversation ollm).averageIntensity ∧
      (analyzeOverallEmotion conversation ollm).averageIntensity ≤ 10) ∧
    (1 ≤ (analyzeOverallEmotion conversation ollm).wellBeingScore ∧
      (analyzeOverallEmotion conversation ollm).wellBeingScore ≤ 10) ∧
    (1 ≤ (analyzeOverallEmotion conversation ollm).stressLevel ∧
      (analyzeOverallEmotion conversation ollm).stressLevel ≤ 10) ∧
    (1 ≤ (analyzeOverallEmotion conversation ollm).energyLevel ∧
      (analyzeOverallEmotion conversation ollm).energyLevel ≤ 10) ∧
    (1 ≤ (analyzeOverallEmotion conversation ollm).satisfaction ∧
      (analyzeOverallEmotion conversation ollm).satisfaction ≤ 10) := by
  obtain ⟨h1, h2, h3⟩ := analyzeEmotion_bounds text context llm
  obtain ⟨h4, h5, h6, h7, h8⟩ := analyzeOverallEmotion_bounds conversation ollm
  exact ⟨h1, h2, h3, h4, h5, h6, h7, h8⟩

/-- C5: whenever the external call throws or returns unparsable output
(`none`), every extraction and insight operation returns its documented
default payload instead of propagating the failure. -/
theorem c5_llm_failure_defaults (text context : String)
    (conversation : StoredConversation) (conversationData : ConversationData)
    (historicalAnalysis : HistoricalAnalysis) :
    analyzeEmotion text context none =
      { primaryEmotion := "neutral", intensity := 5, confidence := 3/10,
        triggers := [], context := context, needs := [], sentiment := 0 } ∧
    analyzeOverallEmotion conversation none =
      { dominantEmotion := "neutral", averageIntensity := 5,
        emotionalState := "balanced", wellBeingScore := 5, stressLevel := 5,
        energyLevel := 5, satisfaction := 5 } ∧
    generateEmotionalInsights conversation none =
      { emotionalPatterns := [], concerns := [], positiveFactors := [],
        recommendations := [], keyTopics := [] } ∧
    generateAIInsights conversationData none = getDefaultInsights ∧
    generatePredictiveInsights conversationData historicalAnalysis none =
      getDefaultPredictiveInsights :=
  ⟨rfl, rfl, rfl, rfl, rfl⟩

/-- C6 counterexample: a successfully parsed predictive payload with
`nextWeekMood = 99` is returned verbatim — the claimed clamping to [1,10]
does not happen. -/
theorem c6_predictive_no_clamp_counterexample :
    (generatePredictiveInsights
        { messages := [], totalDuration := 0, responseTimes := [],
          conversationType := "daily", overallEmotion := none, insights := none }
        getDefaultHistoricalAnalysis
        (some { riskFactors := [], improvementAreas := [],
                successIndicators := [], interventionRecommendations := [],
                predictedOutcomes :=
                  { nextWeekMood := 99, nextWeekStress := 5,
                    nextWeekEnergy := 5, confidence := 1/2 },
                earlyWarningSignals := [],
                opportunityAreas := [] })).predictedOutcomes.nextWeekMood = 99 ∧
    ¬((99 : ℚ) ≤ 10) :=
  ⟨rfl, by norm_num⟩

/-- C6 amended: the predictive-insights call applies the default-on-failure
half of the discipline only — a parsed payload is passed through without
any validation or clamping of its numeric fields, while a failed or
unparsable call yields the default payload, whose projection fields are
within their stated ranges. -/
theorem c6_predictive_passthrough (conversationData : ConversationData)
    (historicalAnalysis : HistoricalAnalysis) (parsed : PredictiveInsights) :
    generatePredictiveInsights conversationData historicalAnalysis (some parsed) =
      parsed ∧
    generatePredictiveInsights conversationData historicalAnalysis none =
      getDefaultPredictiveInsights ∧
    (1 ≤ getDefaultPredictiveInsights.predictedOutcomes.nextWeekMood ∧
      getDefaultPredictiveInsights.predictedOutcomes.nextWeekMood ≤ 10 ∧
      1 ≤ getDefaultPredictiveInsights.predictedOutcomes.nextWeekStress ∧
      getDefaultPredictiveInsights.predictedOutcomes.nextWeekStress ≤ 10 ∧
      1 ≤ getDefaultPredictiveInsights.predictedOutcomes.nextWeekEnergy ∧
      getDefaultPredictiveInsights.predictedOutcomes.nextWeekEnergy ≤ 10 ∧
      0 ≤ getDefaultPredictiveInsights.predictedOutcomes.confidence ∧
      getDefaultPredictiveInsights.predictedOutcomes.confidence ≤ 1) :=
  ⟨rfl, rfl, by norm_num [getDefaultPredictiveInsights]⟩

/-- C7: when the tenant/time-window query matches no stored analytics
record, the dashboard rollup returns the documented all-zero/empty
structure. -/
theorem c7_empty_window_rollup (db : Db) (tenantId : Nat)
    (timeRange : TimeRangeQuery) (now : Int)
    (h : dashboardQuery db tenantId timeRange now = []) :
    getDashboardAnalytics db tenantId timeRange now =
      { overview :=
          { totalConversations := 0, avgWellBeing := 0, avgStress := 0,
            avgSatisfaction := 0, avgEngagement := 0 }
        emotionalTrends := []
        topTopics := []
        recommendations := []
        timeRange := [] } := by
  unfold getDashboardAnalytics
  rw [h]
  rfl

/-- C7 witness: tenant 1 queries a store whose only record belongs to
tenant 2; the window matches nothing and the rollup is the empty
structure. -/
theorem c7_empty_window_rollup_witness :
    dashboardQuery otherTenantAnalyticsDb 1 (TimeRangeQuery.days 30) 0 = [] ∧
    getDashboardAnalytics otherTenantAnalyticsDb 1 (TimeRangeQuery.days 30) 0 =
      { overview :=
          { totalConversations := 0, avgWellBeing := 0, avgStress := 0,
            avgSatisfaction := 0, avgEngagement := 0 }
        emotionalTrends := []
        topTopics := []
        recommendations := []
        timeRange := [] } :=
  ⟨rfl, c7_empty_window_rollup otherTenantAnalyticsDb 1 (TimeRangeQuery.days 30) 0 rfl⟩

/-- C8: a respond request addressed to a session all of whose matching
conversations are completed or abandoned returns a not-found error and
leaves the store — in particular every questions list — unchanged. -/
theorem c8_respond_after_completion (db : Db) (sessionId : String)
    (tenantId userId : Nat) (questionId questionText userResponse : String)
    (llm : Option RawEmotionPayload) (now : Int)
    (h : ∀ c ∈ db.emotionConversations, c.sessionId = sessionId →
      c.tenantId = tenantId → c.userId = userId →
      c.status = ConvStatus.completed ∨ c.status = ConvStatus.abandoned) :
    respond db sessionId tenantId userId questionId questionText userResponse
      llm now = (RespondResult.notFound, db) := by
  unfold respond
  have hnone : db.emotionConversations.find?
      (fun c => decide (c.sessionId = sessionId ∧ c.tenantId = tenantId ∧
        c.userId = userId ∧ c.status = ConvStatus.in_progress)) = none := by
    rw [List.find?_eq_none]
    intro c hc
    simp only [decide_eq_true_eq, not_and]
    intro h1 h2 h3
    rcases h c hc h1 h2 h3 with h4 | h4 <;> simp [h4]
  rw [hnone]

/-- C8 witness: responding to the completed session `s1` of the sample
store is a not-found outcome with the store returned untouched. -/
theorem c8_respond_after_completion_witness :
    respond completedSessionDb "s1" 1 2 "q1" "How are you" "fine" none 99 =
      (RespondResult.notFound, completedSessionDb) :=
  c8_respond_after_completion completedSessionDb "s1" 1 2 "q1" "How are you"
    "fine" none 99 (by decide)

/-- C9 counterexample: a conversation created at hour 23 analysed at hour 8
gets `timeOfDay = "morning"` — the value derived from the analysis-time
clock — while the boundary rules applied to its creation time would give
`"evening"`, refuting the claim that the field is computed from the
creation time. -/
theorem c9_contextual_now_counterexample :
    (analyzeContextualFactors eveningConversation morningNow).timeOfDay =
      "morning" ∧
    getTimeOfDay eveningConversation.createdAt = "evening" ∧
    (("morning" : String) ≠ "evening") :=
  ⟨rfl, rfl, by decide⟩

/-- C9 amended: the contextual block computes timeOfDay, dayOfWeek and
season by the fixed boundary rules (hour < 6 night, < 12 morning, < 18
afternoon, else evening; month buckets of 3) applied to the wall clock at
which the analysis runs, and its result is independent of the conversation
creation time. -/
theorem c9_contextual_now (conversation : StoredConversation)
    (now t : DateTime) :
    (analyzeContextualFactors conversation now).timeOfDay = getTimeOfDay now ∧
    (analyzeContextualFactors conversation now).dayOfWeek = getDayOfWeek now ∧
    (analyzeContextualFactors conversation now).season = getSeason now ∧
    analyzeContextualFactors { conversation with createdAt := t } now =
      analyzeContextualFactors conversation now ∧
    (∀ d : DateTime, getTimeOfDay d =
      (if d.hour < 6 then "night" else if d.hour < 12 then "morning"
       else if d.hour < 18 then "afternoon" else "evening")) ∧
    (∀ d : DateTime, getSeason d =
      (if d.month < 3 then "spring" else if d.month < 6 then "summer"
       else if d.month < 9 then "autumn" else "winter")) :=
  ⟨rfl, rfl, rfl, rfl, fun _ => rfl, fun _ => rfl⟩

/-- C10: the `topics` member of every assembled ConversationAnalytics
record is the empty list: the later `analyzeTopics` definition shadows the
keyword-based one, and the extracted conversation data has no `topics`
member, so the effective per-conversation topic analysis always yields
`[]`. -/
theorem c10_topics_empty (db : Db) (conversation : StoredConversation)
    (conversationId tenantId userId : Nat) (aiLlm : Option AIInsights)
    (predLlm : Option PredictiveInsights) (now : DateTime) :
    (buildAnalyticsRecord db conversation conversationId tenantId userId
      aiLlm predLlm now).topics = [] ∧
    (∀ conversationData : ConversationData,
      analyzeTopics conversationData = []) :=
  ⟨rfl, fun _ => rfl⟩

end VoiceApp
